import Mathlib

/-!
Verification of the uMath3D 2D triangle rasterization core
(`src/lib/uc3d/systems/render/raster/helpers/rastertriangle2d.cpp`) and the
RGB565 color packing (`src/lib/uc3d/core/color/rgbcolor565.hpp`).

Floating point values are embedded as exact rationals (`ℚ`); machine `uint8_t`
and `uint16_t` values are embedded as `ℕ` with explicit `% 2^w` where the
source truncates. Collaborator types that live outside the provided sources
(the math kernel: `Vector2D`, `Vector3D`, `Quaternion`, `Transform`,
`Rectangle2D`, and the `Mathematics` utilities) are modelled from the spec and
marked as such in their doc comments.
-/

namespace UMath3D

/-- Modelled from the spec: the 2D primitive type `Vector2D`, an ordered pair
of floats (§2 "2D primitive types"). -/
structure Vector2D where
  X : ℚ
  Y : ℚ
deriving DecidableEq, Repr

instance : Sub Vector2D where
  sub a b := ⟨a.X - b.X, a.Y - b.Y⟩

/-- Modelled from the spec: the math-kernel 3D vector type (§2, §6: "vector
subtraction/scaling"). -/
structure Vector3D where
  X : ℚ
  Y : ℚ
  Z : ℚ
deriving DecidableEq, Repr

instance : Sub Vector3D where
  sub a b := ⟨a.X - b.X, a.Y - b.Y, a.Z - b.Z⟩

/-- Modelled from the spec: componentwise division of a vector by a (non-zero)
scale vector, used by the projector (§4.1 step 2). -/
instance : Div Vector3D where
  div a s := ⟨a.X / s.X, a.Y / s.Y, a.Z / s.Z⟩

/-- Modelled from the spec: the math-kernel quaternion (§6: "quaternion
composition/conjugation/rotation-of-vector"). -/
structure Quaternion where
  W : ℚ
  X : ℚ
  Y : ℚ
  Z : ℚ
deriving DecidableEq, Repr

/-- Modelled from the spec: Hamilton product (quaternion composition). -/
def Quaternion.Multiply (q r : Quaternion) : Quaternion :=
  ⟨q.W * r.W - q.X * r.X - q.Y * r.Y - q.Z * r.Z,
   q.W * r.X + q.X * r.W + q.Y * r.Z - q.Z * r.Y,
   q.W * r.Y - q.X * r.Z + q.Y * r.W + q.Z * r.X,
   q.W * r.Z + q.X * r.Y - q.Y * r.X + q.Z * r.W⟩

/-- Modelled from the spec: quaternion conjugation. -/
def Quaternion.Conjugate (q : Quaternion) : Quaternion :=
  ⟨q.W, -q.X, -q.Y, -q.Z⟩

/-- Modelled from the spec: rotation of a vector by a quaternion, the standard
`q * (0,v) * Conjugate(q)` with the vector part extracted. -/
def Quaternion.RotateVector (q : Quaternion) (v : Vector3D) : Vector3D :=
  let p : Quaternion := ⟨0, v.X, v.Y, v.Z⟩
  let r : Quaternion := (q.Multiply p).Multiply q.Conjugate
  ⟨r.X, r.Y, r.Z⟩

/-- Modelled from the spec: the camera transform collaborator (§4.1: position,
rotation, non-zero scale). Accessors `GetPosition`/`GetRotation`/`GetScale`
are plain field reads. -/
structure Transform where
  position : Vector3D
  rotation : Quaternion
  scale : Vector3D
deriving DecidableEq, Repr

def Transform.GetPosition (t : Transform) : Vector3D := t.position

def Transform.GetRotation (t : Transform) : Quaternion := t.rotation

def Transform.GetScale (t : Transform) : Vector3D := t.scale

/-- Modelled from the spec: `Rectangle2D`, an axis-aligned rectangle given by
its minimum and maximum corner (§2 "axis-aligned bounds"). The source
constructs it as `Rectangle2D(minCorner, maxCorner)`. -/
structure Rectangle2D where
  minCorner : Vector2D
  maxCorner : Vector2D
deriving DecidableEq, Repr

/-- Modelled from the spec: the axis-aligned bounding-box intersection test
supplied by `Rectangle2D` (§4.3 "Pure axis-aligned bounding-box intersection
test"), inclusive on the boundary (conservative may-overlap test). -/
def Rectangle2D.Overlaps (a b : Rectangle2D) : Bool :=
  decide (a.minCorner.X ≤ b.maxCorner.X) && decide (b.minCorner.X ≤ a.maxCorner.X) &&
  decide (a.minCorner.Y ≤ b.maxCorner.Y) && decide (b.minCorner.Y ≤ a.maxCorner.Y)

/-- Modelled from the spec: the small epsilon constant for degeneracy checks
supplied by the `Mathematics` utilities (§6). -/
def Mathematics.EPSILON : ℚ := 1 / 10000

/-- Modelled from the spec: absolute-value utility (§6). -/
def Mathematics.FAbs (x : ℚ) : ℚ := |x|

/-- Modelled from the spec: minimum-of-three utility (§6). -/
def Mathematics.Min3 (a b c : ℚ) : ℚ := min a (min b c)

/-- Modelled from the spec: maximum-of-three utility (§6). -/
def Mathematics.Max3 (a b c : ℚ) : ℚ := max a (max b c)

/-- Opaque material reference; the rasterizer never inspects it. -/
structure Material where
  tag : ℕ
deriving DecidableEq, Repr

/-- The 3D source triangle collaborator (`RasterTriangle3D`): three vertex
positions, a face normal, optional per-vertex UVs and a `hasUV` flag (§6).
The C++ holds the vertices by pointer; since the projector immediately
dereferences them, they are embedded by value. -/
structure RasterTriangle3D where
  p1 : Vector3D
  p2 : Vector3D
  p3 : Vector3D
  normal : Vector3D
  hasUV : Bool
  uv1 : Vector2D
  uv2 : Vector2D
  uv3 : Vector2D
deriving DecidableEq, Repr

/-- The projected screen-space triangle `RasterTriangle2D`. `p1 p2 p3` are the
2D vertices (from the `Triangle2D` base), `v0 v1` the cached edge vectors,
`denominator` the cached inverse denominator (sentinel `0` when degenerate),
`bounds` the cached AABB. C++ raw pointers are embedded as `Option`
(`none` = `nullptr`). -/
structure RasterTriangle2D where
  p1 : Vector2D
  p2 : Vector2D
  p3 : Vector2D
  v0 : Vector2D
  v1 : Vector2D
  denominator : ℚ
  bounds : Rectangle2D
  averageDepth : ℚ
  hasUV : Bool
  t3p1 : Option Vector3D
  t3p2 : Option Vector3D
  t3p3 : Option Vector3D
  normal : Option Vector3D
  material : Option Material
  p1UV : Option Vector2D
  p2UV : Option Vector2D
  p3UV : Option Vector2D
deriving DecidableEq, Repr

/-- Source function `RasterTriangle2D::CalculateBoundsAndDenominator`
(rastertriangle2d.cpp lines 45-66): recompute the edge vectors, the (inverse) denominator with its
degeneracy guard, and the tight AABB, from the current vertices. -/
def RasterTriangle2D.CalculateBoundsAndDenominator (t : RasterTriangle2D) :
    RasterTriangle2D :=
  let v0 := t.p2 - t.p1
  let v1 := t.p3 - t.p1
  let d := v0.X * v1.Y - v1.X * v0.Y
  let denom := if Mathematics.FAbs d > Mathematics.EPSILON then 1 / d else 0
  let minX := Mathematics.Min3 t.p1.X t.p2.X t.p3.X
  let minY := Mathematics.Min3 t.p1.Y t.p2.Y t.p3.Y
  let maxX := Mathematics.Max3 t.p1.X t.p2.X t.p3.X
  let maxY := Mathematics.Max3 t.p1.Y t.p2.Y t.p3.Y
  { t with v0 := v0, v1 := v1, denominator := denom,
           bounds := ⟨⟨minX, minY⟩, ⟨maxX, maxY⟩⟩ }

/-- The default constructor `RasterTriangle2D::RasterTriangle2D()`
(rastertriangle2d.cpp lines 3-7): null pointers, `hasUV = false`,
`averageDepth = 0`, `denominator = 0`, `bounds = ((0,0),(1,1))`.
The vertex and edge-vector defaults come from the `Triangle2D()` base
constructor, which is not among the provided sources; modelled from the
spec as zero-initialized points. -/
def RasterTriangle2D.defaultConstruct : RasterTriangle2D :=
  { p1 := ⟨0, 0⟩, p2 := ⟨0, 0⟩, p3 := ⟨0, 0⟩,
    v0 := ⟨0, 0⟩, v1 := ⟨0, 0⟩,
    denominator := 0,
    bounds := ⟨⟨0, 0⟩, ⟨1, 1⟩⟩,
    averageDepth := 0,
    hasUV := false,
    t3p1 := none, t3p2 := none, t3p3 := none, normal := none,
    material := none, p1UV := none, p2UV := none, p3UV := none }

/-- The projecting constructor `RasterTriangle2D::RasterTriangle2D(const
Transform&, const Quaternion&, const RasterTriangle3D&, Material*)`
(rastertriangle2d.cpp lines 9-42): store the source references, copy the UV
data when available, project the three vertices into screen space, set the
average depth, then call `CalculateBoundsAndDenominator`. -/
def RasterTriangle2D.construct (camTransform : Transform)
    (lookDirection : Quaternion) (sourceTriangle : RasterTriangle3D)
    (mat : Option Material) : RasterTriangle2D :=
  let inverseCamRotation :=
    (camTransform.GetRotation.Multiply lookDirection).Conjugate
  let projectedP1 :=
    inverseCamRotation.RotateVector (sourceTriangle.p1 - camTransform.GetPosition) /
      camTransform.GetScale
  let projectedP2 :=
    inverseCamRotation.RotateVector (sourceTriangle.p2 - camTransform.GetPosition) /
      camTransform.GetScale
  let projectedP3 :=
    inverseCamRotation.RotateVector (sourceTriangle.p3 - camTransform.GetPosition) /
      camTransform.GetScale
  let base : RasterTriangle2D :=
    { p1 := ⟨projectedP1.X, projectedP1.Y⟩,
      p2 := ⟨projectedP2.X, projectedP2.Y⟩,
      p3 := ⟨projectedP3.X, projectedP3.Y⟩,
      v0 := ⟨0, 0⟩, v1 := ⟨0, 0⟩, denominator := 0,
      bounds := ⟨⟨0, 0⟩, ⟨1, 1⟩⟩,
      averageDepth := (projectedP1.Z + projectedP2.Z + projectedP3.Z) / 3,
      hasUV := sourceTriangle.hasUV,
      t3p1 := some sourceTriangle.p1,
      t3p2 := some sourceTriangle.p2,
      t3p3 := some sourceTriangle.p3,
      normal := some sourceTriangle.normal,
      material := mat,
      p1UV := if sourceTriangle.hasUV then some sourceTriangle.uv1 else none,
      p2UV := if sourceTriangle.hasUV then some sourceTriangle.uv2 else none,
      p3UV := if sourceTriangle.hasUV then some sourceTriangle.uv3 else none }
  base.CalculateBoundsAndDenominator

/-- Source function `RasterTriangle2D::GetBarycentricCoords`
(rastertriangle2d.cpp lines 68-82). The C++ writes `u v w` through reference parameters only on the
non-degenerate path and returns `inside`; the early return (which leaves
them unwritten) is embedded as `none`, the normal path as
`some (inside, u, v, w)`. -/
def RasterTriangle2D.GetBarycentricCoords (t : RasterTriangle2D)
    (x y : ℚ) : Option (Bool × ℚ × ℚ × ℚ) :=
  if Mathematics.FAbs t.denominator < Mathematics.EPSILON then none
  else
    let v2 := Vector2D.mk x y - t.p1
    let v := (v2.X * t.v1.Y - t.v1.X * v2.Y) * t.denominator
    let w := (t.v0.X * v2.Y - v2.X * t.v0.Y) * t.denominator
    let u := 1 - v - w
    some (decide (v ≥ 0) && decide (w ≥ 0) && decide (u ≥ 0), u, v, w)

/-- The `bool` actually returned by `GetBarycentricCoords`: `false` on the
degenerate early return, `inside` otherwise. -/
def RasterTriangle2D.GetBarycentricInside (t : RasterTriangle2D)
    (x y : ℚ) : Bool :=
  match t.GetBarycentricCoords x y with
  | none => false
  | some r => r.1

/-- Source function `RasterTriangle2D::Overlaps` (rastertriangle2d.cpp lines 84-87): forwards
to the AABB intersection test on the cached bounds. -/
def RasterTriangle2D.Overlaps (t : RasterTriangle2D)
    (otherBounds : Rectangle2D) : Bool :=
  t.bounds.Overlaps otherBounds

/-- Source class `RGBColor` (rgbcolor565.hpp): packed 16-bit RGB565 value plus the three
full 8-bit channels. `uint16_t`/`uint8_t` are embedded as `ℕ` with explicit
truncation where the source truncates. -/
structure RGBColor where
  color : ℕ
  r : ℕ
  g : ℕ
  b : ℕ
deriving DecidableEq, Repr

/-- Source function `RGBColor::Pack` (rgbcolor565.hpp lines 135-139): the RGB565 packing,
with the `uint16_t` store made explicit as `% 2^16`. -/
def RGBColor.PackValue (r g b : ℕ) : ℕ :=
  ((((r >>> 3) <<< 11) ||| ((g >>> 2) <<< 5)) ||| (b >>> 3)) % 2 ^ 16

/-- Source function `RGBColor::SetColor` (rgbcolor565.hpp lines 64-67): store the three
channels, then `Pack()`. -/
def RGBColor.SetColor (_c : RGBColor) (rIn gIn bIn : ℕ) : RGBColor :=
  { r := rIn, g := gIn, b := bIn, color := RGBColor.PackValue rIn gIn bIn }

/-- The channel constructor `RGBColor(uint8_t r, uint8_t g, uint8_t b)`
(rgbcolor565.hpp line 44): delegates to `SetColor` on the default object. -/
def RGBColor.construct (r g b : ℕ) : RGBColor :=
  RGBColor.SetColor ⟨0, 0, 0, 0⟩ r g b

/-- A right triangle with legs of length 4, used as a concrete witness
triangle (the spec §8 "Interpolation example"), before recalculation. -/
def smallBase : RasterTriangle2D :=
  { RasterTriangle2D.defaultConstruct with
    p1 := ⟨0, 0⟩, p2 := ⟨4, 0⟩, p3 := ⟨0, 4⟩ }

/-- The witness triangle with its cached data recalculated. -/
def smallT : RasterTriangle2D := smallBase.CalculateBoundsAndDenominator

/-- A large right triangle with legs of length 200 (construction-time
denominator 40000), before recalculation. -/
def bigBase : RasterTriangle2D :=
  { RasterTriangle2D.defaultConstruct with
    p1 := ⟨0, 0⟩, p2 := ⟨200, 0⟩, p3 := ⟨0, 200⟩ }

/-- The large triangle with its cached data recalculated: its stored inverse
denominator is `1/40000`, which is smaller than `EPSILON`. -/
def bigT : RasterTriangle2D := bigBase.CalculateBoundsAndDenominator

/-- A triangle whose three vertices `(0,0), (1,1), (2,2)` are collinear
(the spec §8 "Degenerate safety" example), before recalculation. -/
def colBase : RasterTriangle2D :=
  { RasterTriangle2D.defaultConstruct with
    p1 := ⟨0, 0⟩, p2 := ⟨1, 1⟩, p3 := ⟨2, 2⟩ }

@[simp] theorem Vector2D.sub2_def (a b : Vector2D) :
    a - b = ⟨a.X - b.X, a.Y - b.Y⟩ := rfl

@[simp] theorem Vector3D.sub3_def (a b : Vector3D) :
    a - b = ⟨a.X - b.X, a.Y - b.Y, a.Z - b.Z⟩ := rfl

@[simp] theorem Vector3D.div_def (a s : Vector3D) :
    a / s = ⟨a.X / s.X, a.Y / s.Y, a.Z / s.Z⟩ := rfl

theorem calc_denominator_def (t : RasterTriangle2D) :
    t.CalculateBoundsAndDenominator.denominator =
      if Mathematics.FAbs ((t.p2.X - t.p1.X) * (t.p3.Y - t.p1.Y) -
          (t.p3.X - t.p1.X) * (t.p2.Y - t.p1.Y)) > Mathematics.EPSILON then
        1 / ((t.p2.X - t.p1.X) * (t.p3.Y - t.p1.Y) -
          (t.p3.X - t.p1.X) * (t.p2.Y - t.p1.Y))
      else 0 := rfl

theorem calc_v0_def (t : RasterTriangle2D) :
    t.CalculateBoundsAndDenominator.v0 = t.p2 - t.p1 := rfl

theorem calc_v1_def (t : RasterTriangle2D) :
    t.CalculateBoundsAndDenominator.v1 = t.p3 - t.p1 := rfl

theorem calc_p1_def (t : RasterTriangle2D) :
    t.CalculateBoundsAndDenominator.p1 = t.p1 := rfl

theorem calc_p2_def (t : RasterTriangle2D) :
    t.CalculateBoundsAndDenominator.p2 = t.p2 := rfl

theorem calc_p3_def (t : RasterTriangle2D) :
    t.CalculateBoundsAndDenominator.p3 = t.p3 := rfl

theorem calc_bounds_def (t : RasterTriangle2D) :
    t.CalculateBoundsAndDenominator.bounds =
      ⟨⟨Mathematics.Min3 t.p1.X t.p2.X t.p3.X, Mathematics.Min3 t.p1.Y t.p2.Y t.p3.Y⟩,
       ⟨Mathematics.Max3 t.p1.X t.p2.X t.p3.X, Mathematics.Max3 t.p1.Y t.p2.Y t.p3.Y⟩⟩ := rfl

theorem getBary_def (t : RasterTriangle2D) (x y : ℚ) :
    t.GetBarycentricCoords x y =
      if Mathematics.FAbs t.denominator < Mathematics.EPSILON then none
      else
        some (decide (((x - t.p1.X) * t.v1.Y - t.v1.X * (y - t.p1.Y)) * t.denominator ≥ 0) &&
              decide ((t.v0.X * (y - t.p1.Y) - (x - t.p1.X) * t.v0.Y) * t.denominator ≥ 0) &&
              decide (1 - ((x - t.p1.X) * t.v1.Y - t.v1.X * (y - t.p1.Y)) * t.denominator -
                (t.v0.X * (y - t.p1.Y) - (x - t.p1.X) * t.v0.Y) * t.denominator ≥ 0),
              1 - ((x - t.p1.X) * t.v1.Y - t.v1.X * (y - t.p1.Y)) * t.denominator -
                (t.v0.X * (y - t.p1.Y) - (x - t.p1.X) * t.v0.Y) * t.denominator,
              ((x - t.p1.X) * t.v1.Y - t.v1.X * (y - t.p1.Y)) * t.denominator,
              (t.v0.X * (y - t.p1.Y) - (x - t.p1.X) * t.v0.Y) * t.denominator) := rfl

theorem degenerate_guard (t : RasterTriangle2D) (h : t.denominator = 0) (x y : ℚ) :
    t.GetBarycentricCoords x y = none := by
  rw [getBary_def, h]
  norm_num [Mathematics.FAbs, Mathematics.EPSILON]

theorem degenerate_guard_inside (t : RasterTriangle2D) (h : t.denominator = 0)
    (x y : ℚ) : t.GetBarycentricInside x y = false := by
  unfold RasterTriangle2D.GetBarycentricInside
  rw [degenerate_guard t h]

theorem early_return_of_small (t : RasterTriangle2D)
    (h : Mathematics.FAbs t.denominator < Mathematics.EPSILON) (x y : ℚ) :
    t.GetBarycentricCoords x y = none := by
  rw [getBary_def, if_pos h]

theorem decide_and_rotate (p q r : Prop) [Decidable p] [Decidable q] [Decidable r] :
    (decide p && decide q && decide r) = decide (r ∧ p ∧ q) := by
  by_cases hp : p <;> by_cases hq : q <;> by_cases hr : r <;> simp [hp, hq, hr]

theorem getBary_some (t : RasterTriangle2D) (x y : ℚ)
    (h : ¬ Mathematics.FAbs t.denominator < Mathematics.EPSILON) :
    t.GetBarycentricCoords x y =
      some (decide (1 - ((x - t.p1.X) * t.v1.Y - t.v1.X * (y - t.p1.Y)) * t.denominator -
              (t.v0.X * (y - t.p1.Y) - (x - t.p1.X) * t.v0.Y) * t.denominator ≥ 0 ∧
            ((x - t.p1.X) * t.v1.Y - t.v1.X * (y - t.p1.Y)) * t.denominator ≥ 0 ∧
            (t.v0.X * (y - t.p1.Y) - (x - t.p1.X) * t.v0.Y) * t.denominator ≥ 0),
            1 - ((x - t.p1.X) * t.v1.Y - t.v1.X * (y - t.p1.Y)) * t.denominator -
              (t.v0.X * (y - t.p1.Y) - (x - t.p1.X) * t.v0.Y) * t.denominator,
            ((x - t.p1.X) * t.v1.Y - t.v1.X * (y - t.p1.Y)) * t.denominator,
            (t.v0.X * (y - t.p1.Y) - (x - t.p1.X) * t.v0.Y) * t.denominator) := by
  rw [getBary_def, if_neg h, decide_and_rotate]

theorem not_small_inv (t : RasterTriangle2D)
    (h : ¬ Mathematics.FAbs t.CalculateBoundsAndDenominator.denominator <
      Mathematics.EPSILON) :
    (t.p2.X - t.p1.X) * (t.p3.Y - t.p1.Y) -
        (t.p3.X - t.p1.X) * (t.p2.Y - t.p1.Y) ≠ 0 ∧
    t.CalculateBoundsAndDenominator.denominator =
      1 / ((t.p2.X - t.p1.X) * (t.p3.Y - t.p1.Y) -
        (t.p3.X - t.p1.X) * (t.p2.Y - t.p1.Y)) := by
  by_cases hc : Mathematics.FAbs ((t.p2.X - t.p1.X) * (t.p3.Y - t.p1.Y) -
      (t.p3.X - t.p1.X) * (t.p2.Y - t.p1.Y)) > Mathematics.EPSILON
  · refine ⟨?_, by rw [calc_denominator_def, if_pos hc]⟩
    intro h0
    rw [h0] at hc
    norm_num [Mathematics.FAbs, Mathematics.EPSILON] at hc
  · exfalso
    apply h
    rw [calc_denominator_def, if_neg hc]
    norm_num [Mathematics.FAbs, Mathematics.EPSILON]

/-- C1 (amended): for every triangle whose stored inverse-denominator passes
the degenerate guard (`|denominator| ≥ EPSILON`, which in particular means it
was not flagged degenerate) and every query point `(x,y)`,
`GetBarycentricCoords` computes `q = (x,y) - p1`, returns
`v = (q.x*v1.y - v1.x*q.y) * inverseDenominator`,
`w = (v0.x*q.y - q.x*v0.y) * inverseDenominator`, `u = 1 - v - w`, and reports
`inside = (u ≥ 0) ∧ (v ≥ 0) ∧ (w ≥ 0)`, so points exactly on an edge count as
inside. -/
theorem C1_barycentric_formula (t : RasterTriangle2D) (x y : ℚ)
    (h : ¬ Mathematics.FAbs t.denominator < Mathematics.EPSILON) :
    t.GetBarycentricCoords x y =
      some (decide (1 - ((x - t.p1.X) * t.v1.Y - t.v1.X * (y - t.p1.Y)) * t.denominator -
              (t.v0.X * (y - t.p1.Y) - (x - t.p1.X) * t.v0.Y) * t.denominator ≥ 0 ∧
            ((x - t.p1.X) * t.v1.Y - t.v1.X * (y - t.p1.Y)) * t.denominator ≥ 0 ∧
            (t.v0.X * (y - t.p1.Y) - (x - t.p1.X) * t.v0.Y) * t.denominator ≥ 0),
            1 - ((x - t.p1.X) * t.v1.Y - t.v1.X * (y - t.p1.Y)) * t.denominator -
              (t.v0.X * (y - t.p1.Y) - (x - t.p1.X) * t.v0.Y) * t.denominator,
            ((x - t.p1.X) * t.v1.Y - t.v1.X * (y - t.p1.Y)) * t.denominator,
            (t.v0.X * (y - t.p1.Y) - (x - t.p1.X) * t.v0.Y) * t.denominator) :=
  getBary_some t x y h

/-- C1 witness: the spec's interpolation-example triangle
`p1=(0,0), p2=(4,0), p3=(0,4)` at query point `(1,1)` yields
`(u,v,w) = (1/2, 1/4, 1/4)` and `inside = true`. -/
theorem C1_barycentric_formula_witness :
    ¬ Mathematics.FAbs smallT.denominator < Mathematics.EPSILON ∧
    smallT.GetBarycentricCoords 1 1 = some (true, 1/2, 1/4, 1/4) := by
  have h : ¬ Mathematics.FAbs smallT.denominator < Mathematics.EPSILON := by
    norm_num [smallT, smallBase, calc_denominator_def,
      RasterTriangle2D.defaultConstruct, Mathematics.FAbs, Mathematics.EPSILON,
      abs_of_nonneg]
  refine ⟨h, (C1_barycentric_formula smallT 1 1 h).trans ?_⟩
  norm_num [smallT, smallBase, calc_p1_def, calc_v0_def, calc_v1_def,
    calc_denominator_def, RasterTriangle2D.defaultConstruct, Mathematics.FAbs,
    Mathematics.EPSILON, abs_of_nonneg]

/-- C1 counterexample: the triangle `p1=(0,0), p2=(200,0), p3=(0,200)` is not
flagged degenerate at construction (its stored inverse denominator is
`1/40000 ≠ 0`), yet at the interior query point `(1,1)` the function takes the
early return: it returns no `(u,v,w)` at all and reports `inside = false`,
where the claim requires it to return the formula values and
`inside = true`. -/
theorem C1_not_flagged_but_early_return :
    bigT.denominator = 1 / 40000 ∧
    bigT.GetBarycentricCoords 1 1 = none ∧
    bigT.GetBarycentricInside 1 1 = false := by
  have hden : bigT.denominator = 1 / 40000 := by
    norm_num [bigT, bigBase, calc_denominator_def,
      RasterTriangle2D.defaultConstruct, Mathematics.FAbs, Mathematics.EPSILON,
      abs_of_nonneg]
  have hnone : bigT.GetBarycentricCoords 1 1 = none := by
    rw [getBary_def, if_pos]
    rw [hden]
    norm_num [Mathematics.FAbs, Mathematics.EPSILON, abs_of_nonneg]
  refine ⟨hden, hnone, ?_⟩
  unfold RasterTriangle2D.GetBarycentricInside
  rw [hnone]

/-- C2 (code bug): for the triangle `p1=(0,0), p2=(200,0), p3=(0,200)` the
construction-time denominator is `40000`, whose absolute value is far above
`EPSILON`, so the triangle is not flagged degenerate and its stored
inverse-denominator sentinel is `1/40000 ≠ 0`; nevertheless
`GetBarycentricCoords` takes the degenerate early return for every query
point (here `(1,1)`), because the guard compares `EPSILON` against the
stored *inverse* (`|1/40000| < EPSILON`) instead of testing the degeneracy
flag. This contradicts the claim and the code's own comment
("If triangle is degenerate, no point is inside."). -/
theorem C2_guard_misfires_on_large_triangle :
    bigT.v0.X * bigT.v1.Y - bigT.v1.X * bigT.v0.Y = 40000 ∧
    Mathematics.FAbs 40000 > Mathematics.EPSILON ∧
    bigT.denominator = 1 / 40000 ∧
    bigT.denominator ≠ 0 ∧
    bigT.GetBarycentricCoords 1 1 = none ∧
    bigT.GetBarycentricInside 1 1 = false := by
  have hden : bigT.denominator = 1 / 40000 := by
    norm_num [bigT, bigBase, calc_denominator_def,
      RasterTriangle2D.defaultConstruct, Mathematics.FAbs, Mathematics.EPSILON,
      abs_of_nonneg]
  have hnone : bigT.GetBarycentricCoords 1 1 = none := by
    rw [getBary_def, if_pos]
    rw [hden]
    norm_num [Mathematics.FAbs, Mathematics.EPSILON, abs_of_nonneg]
  refine ⟨?_, ?_, hden, by rw [hden]; norm_num, hnone, ?_⟩
  · norm_num [bigT, bigBase, calc_v0_def, calc_v1_def,
      RasterTriangle2D.defaultConstruct]
  · norm_num [Mathematics.FAbs, Mathematics.EPSILON, abs_of_nonneg]
  · unfold RasterTriangle2D.GetBarycentricInside
    rw [hnone]

/-- C3: a triangle whose three vertices are collinear (the hypothesis is the
standard collinearity equation) gets `0` stored as its inverse-denominator
sentinel by `CalculateBoundsAndDenominator`, and `GetBarycentricCoords` then
reports `inside = false` for every query point. -/
theorem C3_collinear_triangle_never_inside (t : RasterTriangle2D)
    (h : (t.p2.X - t.p1.X) * (t.p3.Y - t.p1.Y) =
         (t.p3.X - t.p1.X) * (t.p2.Y - t.p1.Y)) :
    t.CalculateBoundsAndDenominator.denominator = 0 ∧
    ∀ x y : ℚ, t.CalculateBoundsAndDenominator.GetBarycentricInside x y = false := by
  have hden : t.CalculateBoundsAndDenominator.denominator = 0 := by
    rw [calc_denominator_def, sub_eq_zero_of_eq h]
    norm_num [Mathematics.FAbs, Mathematics.EPSILON]
  exact ⟨hden, fun x y =>
    degenerate_guard_inside t.CalculateBoundsAndDenominator hden x y⟩

/-- C3 witness: the spec's example collinear triangle `(0,0), (1,1), (2,2)`
is flagged degenerate and reports the query point `(3, 1)` as not inside. -/
theorem C3_collinear_triangle_never_inside_witness :
    (colBase.p2.X - colBase.p1.X) * (colBase.p3.Y - colBase.p1.Y) =
      (colBase.p3.X - colBase.p1.X) * (colBase.p2.Y - colBase.p1.Y) ∧
    colBase.CalculateBoundsAndDenominator.denominator = 0 ∧
    colBase.CalculateBoundsAndDenominator.GetBarycentricInside 3 1 = false := by
  have h : (colBase.p2.X - colBase.p1.X) * (colBase.p3.Y - colBase.p1.Y) =
      (colBase.p3.X - colBase.p1.X) * (colBase.p2.Y - colBase.p1.Y) := by
    norm_num [colBase, RasterTriangle2D.defaultConstruct]
  exact ⟨h, (C3_collinear_triangle_never_inside colBase h).1,
    (C3_collinear_triangle_never_inside colBase h).2 3 1⟩

/-- C7: whenever `GetBarycentricCoords` computes and returns barycentric
coordinates `(u, v, w)`, they satisfy `u + v + w = 1` exactly in exact
arithmetic: `u` is defined as `1 - v - w` and no renormalization step
exists. -/
theorem C7_barycentric_sum_is_one (t : RasterTriangle2D) (x y : ℚ)
    (b : Bool) (u v w : ℚ)
    (h : t.GetBarycentricCoords x y = some (b, u, v, w)) : u + v + w = 1 := by
  rw [getBary_def] at h
  split at h
  · exact absurd h (by simp)
  · simp only [Option.some.injEq, Prod.mk.injEq] at h
    obtain ⟨-, hu, hv, hw⟩ := h
    subst hu hv hw
    ring

/-- C7 witness: on the spec's interpolation-example triangle at query point
`(1,1)`, the returned coordinates `(1/2, 1/4, 1/4)` sum to `1`. -/
theorem C7_barycentric_sum_is_one_witness :
    smallT.GetBarycentricCoords 1 1 = some (true, 1/2, 1/4, 1/4) ∧
    (1/2 : ℚ) + 1/4 + 1/4 = 1 := by
  have h : smallT.GetBarycentricCoords 1 1 = some (true, 1/2, 1/4, 1/4) := by
    norm_num [smallT, smallBase, RasterTriangle2D.GetBarycentricCoords,
      RasterTriangle2D.CalculateBoundsAndDenominator,
      RasterTriangle2D.defaultConstruct, Mathematics.FAbs, Mathematics.EPSILON,
      abs_of_nonneg]
  exact ⟨h, C7_barycentric_sum_is_one smallT 1 1 true (1/2) (1/4) (1/4) h⟩

/-- C9: a default-constructed `RasterTriangle2D` stores `0` as its denominator
sentinel, null source/material/UV pointers, `hasUV = false` and
`averageDepth = 0`; `GetBarycentricCoords` takes the degenerate early return
(whose computation reads only the `denominator` field, never a pointer), so
`inside` is `false` for every query point. -/
theorem C9_default_triangle_state :
    RasterTriangle2D.defaultConstruct.denominator = 0 ∧
    RasterTriangle2D.defaultConstruct.t3p1 = none ∧
    RasterTriangle2D.defaultConstruct.t3p2 = none ∧
    RasterTriangle2D.defaultConstruct.t3p3 = none ∧
    RasterTriangle2D.defaultConstruct.normal = none ∧
    RasterTriangle2D.defaultConstruct.material = none ∧
    RasterTriangle2D.defaultConstruct.p1UV = none ∧
    RasterTriangle2D.defaultConstruct.p2UV = none ∧
    RasterTriangle2D.defaultConstruct.p3UV = none ∧
    RasterTriangle2D.defaultConstruct.hasUV = false ∧
    RasterTriangle2D.defaultConstruct.averageDepth = 0 ∧
    (∀ x y : ℚ, RasterTriangle2D.defaultConstruct.GetBarycentricCoords x y = none) ∧
    ∀ x y : ℚ, RasterTriangle2D.defaultConstruct.GetBarycentricInside x y = false :=
  ⟨rfl, rfl, rfl, rfl, rfl, rfl, rfl, rfl, rfl, rfl, rfl,
   fun x y => degenerate_guard RasterTriangle2D.defaultConstruct rfl x y,
   fun x y => degenerate_guard_inside RasterTriangle2D.defaultConstruct rfl x y⟩

/-- C8 (amended): for every triangle whose recalculated stored
inverse-denominator passes the degenerate guard (`|inverseDenominator| ≥
EPSILON`), evaluating `GetBarycentricCoords` at the vertices `p1, p2, p3`
yields, exactly, `(inside, u, v, w) = (true, 1, 0, 0)`, `(true, 0, 1, 0)`
and `(true, 0, 0, 1)` respectively, matching the fixed coordinate-to-vertex
association `u ↔ p1`, `v ↔ p2`, `w ↔ p3`. -/
theorem C8_vertex_exactness (t : RasterTriangle2D)
    (h : ¬ Mathematics.FAbs t.CalculateBoundsAndDenominator.denominator <
      Mathematics.EPSILON) :
    t.CalculateBoundsAndDenominator.GetBarycentricCoords t.p1.X t.p1.Y =
      some (true, 1, 0, 0) ∧
    t.CalculateBoundsAndDenominator.GetBarycentricCoords t.p2.X t.p2.Y =
      some (true, 0, 1, 0) ∧
    t.CalculateBoundsAndDenominator.GetBarycentricCoords t.p3.X t.p3.Y =
      some (true, 0, 0, 1) := by
  obtain ⟨hd, hden⟩ := not_small_inv t h
  refine ⟨?_, ?_, ?_⟩
  · have e := getBary_some t.CalculateBoundsAndDenominator t.p1.X t.p1.Y h
    simp only [calc_p1_def, calc_v0_def, calc_v1_def, hden, Vector2D.sub2_def] at e
    rw [e]
    have hv : ((t.p1.X - t.p1.X) * (t.p3.Y - t.p1.Y) -
        (t.p3.X - t.p1.X) * (t.p1.Y - t.p1.Y)) *
        (1 / ((t.p2.X - t.p1.X) * (t.p3.Y - t.p1.Y) -
          (t.p3.X - t.p1.X) * (t.p2.Y - t.p1.Y))) = 0 := by ring
    have hw : ((t.p2.X - t.p1.X) * (t.p1.Y - t.p1.Y) -
        (t.p1.X - t.p1.X) * (t.p2.Y - t.p1.Y)) *
        (1 / ((t.p2.X - t.p1.X) * (t.p3.Y - t.p1.Y) -
          (t.p3.X - t.p1.X) * (t.p2.Y - t.p1.Y))) = 0 := by ring
    rw [hv, hw]
    norm_num
  · have e := getBary_some t.CalculateBoundsAndDenominator t.p2.X t.p2.Y h
    simp only [calc_p1_def, calc_v0_def, calc_v1_def, hden, Vector2D.sub2_def] at e
    rw [e]
    have hv : ((t.p2.X - t.p1.X) * (t.p3.Y - t.p1.Y) -
        (t.p3.X - t.p1.X) * (t.p2.Y - t.p1.Y)) *
        (1 / ((t.p2.X - t.p1.X) * (t.p3.Y - t.p1.Y) -
          (t.p3.X - t.p1.X) * (t.p2.Y - t.p1.Y))) = 1 := by
      rw [mul_one_div, div_self hd]
    have hw : ((t.p2.X - t.p1.X) * (t.p2.Y - t.p1.Y) -
        (t.p2.X - t.p1.X) * (t.p2.Y - t.p1.Y)) *
        (1 / ((t.p2.X - t.p1.X) * (t.p3.Y - t.p1.Y) -
          (t.p3.X - t.p1.X) * (t.p2.Y - t.p1.Y))) = 0 := by ring
    rw [hv, hw]
    norm_num
  · have e := getBary_some t.CalculateBoundsAndDenominator t.p3.X t.p3.Y h
    simp only [calc_p1_def, calc_v0_def, calc_v1_def, hden, Vector2D.sub2_def] at e
    rw [e]
    have hv : ((t.p3.X - t.p1.X) * (t.p3.Y - t.p1.Y) -
        (t.p3.X - t.p1.X) * (t.p3.Y - t.p1.Y)) *
        (1 / ((t.p2.X - t.p1.X) * (t.p3.Y - t.p1.Y) -
          (t.p3.X - t.p1.X) * (t.p2.Y - t.p1.Y))) = 0 := by ring
    have hw : ((t.p2.X - t.p1.X) * (t.p3.Y - t.p1.Y) -
        (t.p3.X - t.p1.X) * (t.p2.Y - t.p1.Y)) *
        (1 / ((t.p2.X - t.p1.X) * (t.p3.Y - t.p1.Y) -
          (t.p3.X - t.p1.X) * (t.p2.Y - t.p1.Y))) = 1 := by
      rw [mul_one_div, div_self hd]
    rw [hv, hw]
    norm_num

/-- C8 witness: vertex exactness at the concrete triangle
`p1=(0,0), p2=(4,0), p3=(0,4)`. -/
theorem C8_vertex_exactness_witness :
    ¬ Mathematics.FAbs smallBase.CalculateBoundsAndDenominator.denominator <
      Mathematics.EPSILON ∧
    smallBase.CalculateBoundsAndDenominator.GetBarycentricCoords
      smallBase.p1.X smallBase.p1.Y = some (true, 1, 0, 0) ∧
    smallBase.CalculateBoundsAndDenominator.GetBarycentricCoords
      smallBase.p2.X smallBase.p2.Y = some (true, 0, 1, 0) ∧
    smallBase.CalculateBoundsAndDenominator.GetBarycentricCoords
      smallBase.p3.X smallBase.p3.Y = some (true, 0, 0, 1) := by
  have h : ¬ Mathematics.FAbs smallBase.CalculateBoundsAndDenominator.denominator <
      Mathematics.EPSILON := by
    norm_num [smallBase, calc_denominator_def, RasterTriangle2D.defaultConstruct,
      Mathematics.FAbs, Mathematics.EPSILON, abs_of_nonneg]
  exact ⟨h, C8_vertex_exactness smallBase h⟩

/-- C8 counterexample: the triangle `p1=(0,0), p2=(200,0), p3=(0,200)` is not
flagged degenerate (its sentinel is `1/40000 ≠ 0`), yet evaluating
`GetBarycentricCoords` at each of its three vertices takes the early return
and yields no barycentric coordinates at all, where the claim requires
`(1,0,0)`, `(0,1,0)`, `(0,0,1)`. -/
theorem C8_vertices_yield_no_coords :
    bigT.denominator ≠ 0 ∧
    bigT.GetBarycentricCoords bigT.p1.X bigT.p1.Y = none ∧
    bigT.GetBarycentricCoords bigT.p2.X bigT.p2.Y = none ∧
    bigT.GetBarycentricCoords bigT.p3.X bigT.p3.Y = none := by
  have hden : bigT.denominator = 1 / 40000 := by
    norm_num [bigT, bigBase, calc_denominator_def,
      RasterTriangle2D.defaultConstruct, Mathematics.FAbs, Mathematics.EPSILON,
      abs_of_nonneg]
  have hsmall : Mathematics.FAbs bigT.denominator < Mathematics.EPSILON := by
    rw [hden]
    norm_num [Mathematics.FAbs, Mathematics.EPSILON, abs_of_nonneg]
  exact ⟨by rw [hden]; norm_num,
    early_return_of_small bigT hsmall _ _,
    early_return_of_small bigT hsmall _ _,
    early_return_of_small bigT hsmall _ _⟩

/-- C5 counterexample: after the default constructor — a construction — the
stored bounds are the fixed rectangle `((0,0),(1,1))`, which is not the
componentwise min/max of the three (zero-initialized) vertices: the
maximum corner is `(1,1)` while the componentwise maximum of the vertices is
`(0,0)`. -/
theorem C5_default_bounds_not_tight :
    RasterTriangle2D.defaultConstruct.bounds.maxCorner ≠
      ⟨Mathematics.Max3 RasterTriangle2D.defaultConstruct.p1.X
         RasterTriangle2D.defaultConstruct.p2.X
         RasterTriangle2D.defaultConstruct.p3.X,
       Mathematics.Max3 RasterTriangle2D.defaultConstruct.p1.Y
         RasterTriangle2D.defaultConstruct.p2.Y
         RasterTriangle2D.defaultConstruct.p3.Y⟩ := by
  norm_num [RasterTriangle2D.defaultConstruct, Mathematics.Max3,
    Vector2D.mk.injEq]

/-- C5 (amended): after the projecting constructor and after any
`CalculateBoundsAndDenominator` recalculation, `bounds.min` is the
componentwise minimum and `bounds.max` the componentwise maximum of
`p1, p2, p3` on both axes, for arbitrary vertex values (hence for arbitrary
vertex permutations); the default constructor instead leaves the placeholder
bounds `((0,0),(1,1))` untouched. -/
theorem C5_bounds_tight :
    (∀ t : RasterTriangle2D,
      t.CalculateBoundsAndDenominator.bounds.minCorner =
        ⟨min t.p1.X (min t.p2.X t.p3.X), min t.p1.Y (min t.p2.Y t.p3.Y)⟩ ∧
      t.CalculateBoundsAndDenominator.bounds.maxCorner =
        ⟨max t.p1.X (max t.p2.X t.p3.X), max t.p1.Y (max t.p2.Y t.p3.Y)⟩) ∧
    (∀ (cam : Transform) (look : Quaternion) (src : RasterTriangle3D)
        (mat : Option Material),
      (RasterTriangle2D.construct cam look src mat).bounds.minCorner =
        ⟨min (RasterTriangle2D.construct cam look src mat).p1.X
           (min (RasterTriangle2D.construct cam look src mat).p2.X
             (RasterTriangle2D.construct cam look src mat).p3.X),
         min (RasterTriangle2D.construct cam look src mat).p1.Y
           (min (RasterTriangle2D.construct cam look src mat).p2.Y
             (RasterTriangle2D.construct cam look src mat).p3.Y)⟩ ∧
      (RasterTriangle2D.construct cam look src mat).bounds.maxCorner =
        ⟨max (RasterTriangle2D.construct cam look src mat).p1.X
           (max (RasterTriangle2D.construct cam look src mat).p2.X
             (RasterTriangle2D.construct cam look src mat).p3.X),
         max (RasterTriangle2D.construct cam look src mat).p1.Y
           (max (RasterTriangle2D.construct cam look src mat).p2.Y
             (RasterTriangle2D.construct cam look src mat).p3.Y)⟩) :=
  ⟨fun _ => ⟨rfl, rfl⟩, fun _ _ _ _ => ⟨rfl, rfl⟩⟩

/-- C6: `Overlaps(queryRect)` is exactly the axis-aligned bounding-box
intersection test between the triangle's stored bounds and the query
rectangle, and for every query rectangle that strictly contains the
(recalculated) bounds it returns `true` — no false negatives against the
bounds. -/
theorem C6_overlaps_is_aabb_test (t : RasterTriangle2D) (q : Rectangle2D)
    (h1 : q.minCorner.X < t.CalculateBoundsAndDenominator.bounds.minCorner.X)
    (h2 : q.minCorner.Y < t.CalculateBoundsAndDenominator.bounds.minCorner.Y)
    (h3 : t.CalculateBoundsAndDenominator.bounds.maxCorner.X < q.maxCorner.X)
    (h4 : t.CalculateBoundsAndDenominator.bounds.maxCorner.Y < q.maxCorner.Y) :
    (∀ r : Rectangle2D, t.CalculateBoundsAndDenominator.Overlaps r =
      Rectangle2D.Overlaps t.CalculateBoundsAndDenominator.bounds r) ∧
    t.CalculateBoundsAndDenominator.Overlaps q = true := by
  have hmmX : t.CalculateBoundsAndDenominator.bounds.minCorner.X ≤
      t.CalculateBoundsAndDenominator.bounds.maxCorner.X := by
    rw [calc_bounds_def]
    exact le_trans (min_le_left _ _) (le_max_left _ _)
  have hmmY : t.CalculateBoundsAndDenominator.bounds.minCorner.Y ≤
      t.CalculateBoundsAndDenominator.bounds.maxCorner.Y := by
    rw [calc_bounds_def]
    exact le_trans (min_le_left _ _) (le_max_left _ _)
  refine ⟨fun r => rfl, ?_⟩
  unfold RasterTriangle2D.Overlaps Rectangle2D.Overlaps
  simp only [Bool.and_eq_true, decide_eq_true_eq]
  exact ⟨⟨⟨le_of_lt (lt_of_le_of_lt hmmX h3), le_of_lt (lt_of_lt_of_le h1 hmmX)⟩,
    le_of_lt (lt_of_le_of_lt hmmY h4)⟩, le_of_lt (lt_of_lt_of_le h2 hmmY)⟩

/-- C6 witness: the query rectangle `((-1,-1),(5,5))` strictly contains the
bounds `((0,0),(4,4))` of the triangle `p1=(0,0), p2=(4,0), p3=(0,4)` and
`Overlaps` reports `true`. -/
theorem C6_overlaps_is_aabb_test_witness :
    (-1 : ℚ) < smallBase.CalculateBoundsAndDenominator.bounds.minCorner.X ∧
    (-1 : ℚ) < smallBase.CalculateBoundsAndDenominator.bounds.minCorner.Y ∧
    smallBase.CalculateBoundsAndDenominator.bounds.maxCorner.X < 5 ∧
    smallBase.CalculateBoundsAndDenominator.bounds.maxCorner.Y < 5 ∧
    smallBase.CalculateBoundsAndDenominator.Overlaps ⟨⟨-1, -1⟩, ⟨5, 5⟩⟩ = true := by
  have h1 : (⟨⟨-1, -1⟩, ⟨5, 5⟩⟩ : Rectangle2D).minCorner.X <
      smallBase.CalculateBoundsAndDenominator.bounds.minCorner.X := by
    norm_num [smallBase, calc_bounds_def, RasterTriangle2D.defaultConstruct,
      Mathematics.Min3]
  have h2 : (⟨⟨-1, -1⟩, ⟨5, 5⟩⟩ : Rectangle2D).minCorner.Y <
      smallBase.CalculateBoundsAndDenominator.bounds.minCorner.Y := by
    norm_num [smallBase, calc_bounds_def, RasterTriangle2D.defaultConstruct,
      Mathematics.Min3]
  have h3 : smallBase.CalculateBoundsAndDenominator.bounds.maxCorner.X <
      (⟨⟨-1, -1⟩, ⟨5, 5⟩⟩ : Rectangle2D).maxCorner.X := by
    norm_num [smallBase, calc_bounds_def, RasterTriangle2D.defaultConstruct,
      Mathematics.Max3]
  have h4 : smallBase.CalculateBoundsAndDenominator.bounds.maxCorner.Y <
      (⟨⟨-1, -1⟩, ⟨5, 5⟩⟩ : Rectangle2D).maxCorner.Y := by
    norm_num [smallBase, calc_bounds_def, RasterTriangle2D.defaultConstruct,
      Mathematics.Max3]
  exact ⟨h1, h2, h3, h4,
    (C6_overlaps_is_aabb_test smallBase ⟨⟨-1, -1⟩, ⟨5, 5⟩⟩ h1 h2 h3 h4).2⟩

/-- C4: the projecting constructor computes
`inverseCameraRotation = Conjugate(cameraTransform.rotation * lookRotation)`,
projects each source vertex as
`screenPoint = inverseCameraRotation.RotateVector(vertex -
cameraTransform.position) / cameraTransform.scale`, takes the resulting X,Y
as the 2D screen vertices `p1, p2, p3` in source order, and sets
`averageDepth` to the mean of the three Z values. -/
theorem C4_projection_formula (cam : Transform) (look : Quaternion)
    (src : RasterTriangle3D) (mat : Option Material) :
    (RasterTriangle2D.construct cam look src mat).p1 =
      ⟨(((cam.rotation.Multiply look).Conjugate.RotateVector
          (src.p1 - cam.position)) / cam.scale).X,
       (((cam.rotation.Multiply look).Conjugate.RotateVector
          (src.p1 - cam.position)) / cam.scale).Y⟩ ∧
    (RasterTriangle2D.construct cam look src mat).p2 =
      ⟨(((cam.rotation.Multiply look).Conjugate.RotateVector
          (src.p2 - cam.position)) / cam.scale).X,
       (((cam.rotation.Multiply look).Conjugate.RotateVector
          (src.p2 - cam.position)) / cam.scale).Y⟩ ∧
    (RasterTriangle2D.construct cam look src mat).p3 =
      ⟨(((cam.rotation.Multiply look).Conjugate.RotateVector
          (src.p3 - cam.position)) / cam.scale).X,
       (((cam.rotation.Multiply look).Conjugate.RotateVector
          (src.p3 - cam.position)) / cam.scale).Y⟩ ∧
    (RasterTriangle2D.construct cam look src mat).averageDepth =
      ((((cam.rotation.Multiply look).Conjugate.RotateVector
          (src.p1 - cam.position)) / cam.scale).Z +
       (((cam.rotation.Multiply look).Conjugate.RotateVector
          (src.p2 - cam.position)) / cam.scale).Z +
       (((cam.rotation.Multiply look).Conjugate.RotateVector
          (src.p3 - cam.position)) / cam.scale).Z) / 3 :=
  ⟨rfl, rfl, rfl, rfl⟩

/-- C10: for every `RGBColor` constructed from channels `(r, g, b)` or
updated via `SetColor`, the packed 16-bit field `color` equals
`((r >> 3) << 11) | ((g >> 2) << 5) | (b >> 3)` in exact unsigned integer
arithmetic (the packed value always fits in 16 bits, so the `uint16_t` store
truncates nothing), while the stored 8-bit channels `r, g, b` retain their
full unquantized values. -/
theorem C10_rgb565_packing (c : RGBColor) (r g b : ℕ)
    (hr : r < 256) (hg : g < 256) (hb : b < 256) :
    (c.SetColor r g b).color =
      ((r >>> 3) <<< 11) ||| ((g >>> 2) <<< 5) ||| (b >>> 3) ∧
    (c.SetColor r g b).r = r ∧ (c.SetColor r g b).g = g ∧
    (c.SetColor r g b).b = b ∧
    RGBColor.construct r g b = c.SetColor r g b := by
  refine ⟨?_, rfl, rfl, rfl, rfl⟩
  show RGBColor.PackValue r g b = _
  unfold RGBColor.PackValue
  have h1 : (r >>> 3) <<< 11 < 2 ^ 16 := by
    rw [Nat.shiftRight_eq_div_pow, Nat.shiftLeft_eq]
    norm_num
    omega
  have h2 : (g >>> 2) <<< 5 < 2 ^ 16 := by
    rw [Nat.shiftRight_eq_div_pow, Nat.shiftLeft_eq]
    norm_num
    omega
  have h3 : b >>> 3 < 2 ^ 16 := by
    rw [Nat.shiftRight_eq_div_pow]
    have : b / 2 ^ 3 ≤ b := Nat.div_le_self b (2 ^ 3)
    omega
  have h12 : ((r >>> 3) <<< 11) ||| ((g >>> 2) <<< 5) < 2 ^ 16 := by
    show Nat.lor _ _ < 2 ^ 16
    unfold Nat.lor
    exact Nat.bitwise_lt h1 h2
  have h123 : (((r >>> 3) <<< 11) ||| ((g >>> 2) <<< 5)) ||| (b >>> 3) < 2 ^ 16 := by
    show Nat.lor _ _ < 2 ^ 16
    unfold Nat.lor
    exact Nat.bitwise_lt h12 h3
  exact Nat.mod_eq_of_lt h123

/-- C10 witness: packing the concrete channels `(255, 160, 31)`. -/
theorem C10_rgb565_packing_witness :
    (255 : ℕ) < 256 ∧ (160 : ℕ) < 256 ∧ (31 : ℕ) < 256 ∧
    (RGBColor.SetColor ⟨0, 0, 0, 0⟩ 255 160 31).color =
      ((255 >>> 3) <<< 11) ||| ((160 >>> 2) <<< 5) ||| (31 >>> 3) ∧
    (RGBColor.SetColor ⟨0, 0, 0, 0⟩ 255 160 31).r = 255 ∧
    (RGBColor.SetColor ⟨0, 0, 0, 0⟩ 255 160 31).g = 160 ∧
    (RGBColor.SetColor ⟨0, 0, 0, 0⟩ 255 160 31).b = 31 ∧
    RGBColor.construct 255 160 31 = RGBColor.SetColor ⟨0, 0, 0, 0⟩ 255 160 31 :=
  ⟨by norm_num, by norm_num, by norm_num,
   C10_rgb565_packing ⟨0, 0, 0, 0⟩ 255 160 31 (by norm_num) (by norm_num)
     (by norm_num)⟩

end UMath3D
